import Mathlib

/-!
Verification development for the Hasura metadata-application module
(`migrations/hasura.go`).  The Go code is shallowly embedded: pure payload
construction and JSON marshalling become Lean functions; the HTTP transport
and the remote endpoint are modelled as an explicit environment (a function
from the issued request to the transport outcome); the straight-line
orchestrator `ApplyHasuraMetadata` becomes a Lean function that additionally
records the list of issued requests and the warning diagnostics.
-/

namespace HasuraStorage

/-- The `hasuraErrResponse` struct: the structured error shape
`\x7b"path","error","code"\x7d` that `postMetadata` tries to decode a non-200
response body into. -/
structure HasuraErrResponse where
  path : String
  error : String
  code : String
deriving DecidableEq

/-- Result of Go's `json.Unmarshal(b, &errResponse)` where `errResponse` has
type `*hasuraErrResponse`.  The decoder itself is the external `encoding/json`
library, so it is modelled abstractly as part of the response:
`failure` is the case where `Unmarshal` returns a non-nil error (the body is
not valid JSON for this shape); `nullValue` is the case where the body is the
JSON literal `null`, on which `Unmarshal` succeeds but leaves the pointer
`nil`; `object e` is the case where `Unmarshal` succeeds and fills in the
struct `e`. -/
inductive DecodeResult where
  | failure : DecodeResult
  | nullValue : DecodeResult
  | object : HasuraErrResponse → DecodeResult
deriving DecidableEq

/-- An HTTP response as observed by `postMetadata`: the status code, the raw
body bytes (read by `io.ReadAll`), and the outcome of unmarshalling the body
into `*hasuraErrResponse`. -/
structure HTTPResponse where
  statusCode : Nat
  body : String
  decoded : DecodeResult
deriving DecidableEq

/-- Outcome of one `postMetadata` call: `ok` is a `nil` error return,
`goError` is a non-nil error return carrying the formatted message, and
`fault` is a Go runtime panic (a nil-pointer dereference) escaping the
function. -/
inductive PostResult where
  | ok : PostResult
  | goError : String → PostResult
  | fault : PostResult
deriving DecidableEq

/-- The error message format of lines 53 and 58 of `hasura.go`:
`fmt.Errorf("status_code: %d\nresponse: %s", resp.StatusCode, b)`. -/
def errorDetail (status : Nat) (body : String) : String :=
  "status_code: " ++ toString status ++ "\nresponse: " ++ body

/-- Lines 49-61 of `postMetadata`: classify the HTTP response.  A 200 status
returns `nil`.  Otherwise the body is unmarshalled into `*hasuraErrResponse`:
if unmarshalling fails the formatted status/body error is returned; if it
succeeds, `errResponse.Code` is compared against the idempotency codes —
which dereferences the pointer, so the `nullValue` case is a nil-pointer
dereference (`fault`). -/
def classifyResponse (resp : HTTPResponse) : PostResult :=
  if resp.statusCode ≠ 200 then
    match resp.decoded with
    | DecodeResult.failure => PostResult.goError (errorDetail resp.statusCode resp.body)
    | DecodeResult.nullValue => PostResult.fault
    | DecodeResult.object e =>
      if e.code = "already-tracked" ∨ e.code = "already-exists" then PostResult.ok
      else PostResult.goError (errorDetail resp.statusCode resp.body)
  else PostResult.ok

/-! ## Operation model: the payload structs and their JSON marshalling -/

/-- The Go `type Table struct` with json tags `schema`, `name`. -/
structure Table where
  schema : String
  name : String
deriving DecidableEq

/-- The Go `type CustomRootFields struct` with its nine snake-cased json tags. -/
structure CustomRootFields where
  select : String
  selectByPk : String
  selectAggregate : String
  insert : String
  insertOne : String
  update : String
  updateByPk : String
  delete : String
  deleteByPk : String
deriving DecidableEq

/-- The Go `type Configuration struct`.  The Go field `CustomColumnNames` is a
`map[string]string`; it is modelled as an association list whose order is the
(arbitrary) iteration order of the map, with the keys distinct as they are in
any Go map. -/
structure Configuration where
  customName : String
  customRootFields : CustomRootFields
  customColumnNames : List (String × String)
deriving DecidableEq

/-- The Go `type PgTrackTableArgs struct`. -/
structure PgTrackTableArgs where
  source : String
  table : Table
  configuration : Configuration
deriving DecidableEq

/-- The Go `type TrackTable struct`. -/
structure TrackTable where
  type : String
  args : PgTrackTableArgs
deriving DecidableEq

/-- The Go `type CreateObjectRelationshipUsing struct`. -/
structure CreateObjectRelationshipUsing where
  foreignKeyConstraintOn : List String
deriving DecidableEq

/-- The Go `type CreateObjectRelationshipArgs struct`. -/
structure CreateObjectRelationshipArgs where
  table : Table
  name : String
  source : String
  usingFk : CreateObjectRelationshipUsing
deriving DecidableEq

/-- The Go `type CreateObjectRelationship struct`. -/
structure CreateObjectRelationship where
  type : String
  args : CreateObjectRelationshipArgs
deriving DecidableEq

/-- The Go `type ForeignKeyConstraintOn struct`. -/
structure ForeignKeyConstraintOn where
  table : Table
  columns : List String
deriving DecidableEq

/-- The Go `type CreateArrayRelationshipUsing struct`. -/
structure CreateArrayRelationshipUsing where
  foreignKeyConstraintOn : ForeignKeyConstraintOn
deriving DecidableEq

/-- The Go `type CreateArrayRelationshipArgs struct`. -/
structure CreateArrayRelationshipArgs where
  table : Table
  name : String
  source : String
  usingFk : CreateArrayRelationshipUsing
deriving DecidableEq

/-- The Go `type CreateArrayRelationship struct`. -/
structure CreateArrayRelationship where
  type : String
  args : CreateArrayRelationshipArgs
deriving DecidableEq

/-- The three request-body kinds `postMetadata` is called with. -/
inductive Operation where
  | trackTable : TrackTable → Operation
  | objectRel : CreateObjectRelationship → Operation
  | arrayRel : CreateArrayRelationship → Operation
deriving DecidableEq

/-- One hexadecimal digit, lower case, as `encoding/json` prints it in
`\u00XX` escapes. -/
def hexDigit (n : Nat) : String :=
  if n = 0 then "0" else if n = 1 then "1" else if n = 2 then "2"
  else if n = 3 then "3" else if n = 4 then "4" else if n = 5 then "5"
  else if n = 6 then "6" else if n = 7 then "7" else if n = 8 then "8"
  else if n = 9 then "9" else if n = 10 then "a" else if n = 11 then "b"
  else if n = 12 then "c" else if n = 13 then "d" else if n = 14 then "e"
  else "f"

/-- Escaping of one character inside a JSON string, as `encoding/json` does
with its default HTML escaping. -/
def jsonEscapeChar (c : Char) : String :=
  if c = '"' then "\\\""
  else if c = '\\' then "\\\\"
  else if c = '\n' then "\\n"
  else if c = '\r' then "\\r"
  else if c = '\t' then "\\t"
  else if c = '<' then "\\u003c"
  else if c = '>' then "\\u003e"
  else if c = '&' then "\\u0026"
  else if c.toNat < 32 then "\\u00" ++ hexDigit (c.toNat / 16) ++ hexDigit (c.toNat % 16)
  else String.singleton c

/-- A JSON string literal. -/
def jstr (s : String) : String :=
  "\"" ++ String.join (s.toList.map jsonEscapeChar) ++ "\""

/-- A JSON array of strings, as `encoding/json` marshals `[]string`. -/
def jsonStringArray (xs : List String) : String :=
  "[" ++ String.intercalate "," (xs.map jstr) ++ "]"

/-- Marshalling of a `map[string]string`: `encoding/json` emits the entries
sorted by key, independently of the map's iteration order. -/
def marshalColumnNames (cols : List (String × String)) : String :=
  "\x7b" ++
    String.intercalate ","
      (((cols.map Prod.fst).insertionSort (· ≤ ·)).map
        (fun k => jstr k ++ ":" ++ jstr ((cols.lookup k).getD ""))) ++
  "\x7d"

/-- json.Marshal of `Table`. -/
def marshalTable (t : Table) : String :=
  "\x7b\"schema\":" ++ jstr t.schema ++ ",\"name\":" ++ jstr t.name ++ "\x7d"

/-- json.Marshal of `CustomRootFields`, fields in declaration order with
their snake-cased tags. -/
def marshalCustomRootFields (f : CustomRootFields) : String :=
  "\x7b\"select\":" ++ jstr f.select ++
  ",\"select_by_pk\":" ++ jstr f.selectByPk ++
  ",\"select_aggregate\":" ++ jstr f.selectAggregate ++
  ",\"insert\":" ++ jstr f.insert ++
  ",\"insert_one\":" ++ jstr f.insertOne ++
  ",\"update\":" ++ jstr f.update ++
  ",\"update_by_pk\":" ++ jstr f.updateByPk ++
  ",\"delete\":" ++ jstr f.delete ++
  ",\"delete_by_pk\":" ++ jstr f.deleteByPk ++ "\x7d"

/-- json.Marshal of `Configuration`. -/
def marshalConfiguration (c : Configuration) : String :=
  "\x7b\"custom_name\":" ++ jstr c.customName ++
  ",\"custom_root_fields\":" ++ marshalCustomRootFields c.customRootFields ++
  ",\"custom_column_names\":" ++ marshalColumnNames c.customColumnNames ++ "\x7d"

/-- json.Marshal of `PgTrackTableArgs`. -/
def marshalPgTrackTableArgs (a : PgTrackTableArgs) : String :=
  "\x7b\"source\":" ++ jstr a.source ++
  ",\"table\":" ++ marshalTable a.table ++
  ",\"configuration\":" ++ marshalConfiguration a.configuration ++ "\x7d"

/-- json.Marshal of `TrackTable`. -/
def marshalTrackTable (t : TrackTable) : String :=
  "\x7b\"type\":" ++ jstr t.type ++ ",\"args\":" ++ marshalPgTrackTableArgs t.args ++ "\x7d"

/-- json.Marshal of `CreateObjectRelationshipUsing`. -/
def marshalObjectRelUsing (u : CreateObjectRelationshipUsing) : String :=
  "\x7b\"foreign_key_constraint_on\":" ++ jsonStringArray u.foreignKeyConstraintOn ++ "\x7d"

/-- json.Marshal of `CreateObjectRelationshipArgs`. -/
def marshalObjectRelArgs (a : CreateObjectRelationshipArgs) : String :=
  "\x7b\"table\":" ++ marshalTable a.table ++
  ",\"name\":" ++ jstr a.name ++
  ",\"source\":" ++ jstr a.source ++
  ",\"using\":" ++ marshalObjectRelUsing a.usingFk ++ "\x7d"

/-- json.Marshal of `CreateObjectRelationship`. -/
def marshalObjectRel (r : CreateObjectRelationship) : String :=
  "\x7b\"type\":" ++ jstr r.type ++ ",\"args\":" ++ marshalObjectRelArgs r.args ++ "\x7d"

/-- json.Marshal of `ForeignKeyConstraintOn`. -/
def marshalFkOn (f : ForeignKeyConstraintOn) : String :=
  "\x7b\"table\":" ++ marshalTable f.table ++
  ",\"columns\":" ++ jsonStringArray f.columns ++ "\x7d"

/-- json.Marshal of `CreateArrayRelationshipUsing`. -/
def marshalArrayRelUsing (u : CreateArrayRelationshipUsing) : String :=
  "\x7b\"foreign_key_constraint_on\":" ++ marshalFkOn u.foreignKeyConstraintOn ++ "\x7d"

/-- json.Marshal of `CreateArrayRelationshipArgs`. -/
def marshalArrayRelArgs (a : CreateArrayRelationshipArgs) : String :=
  "\x7b\"table\":" ++ marshalTable a.table ++
  ",\"name\":" ++ jstr a.name ++
  ",\"source\":" ++ jstr a.source ++
  ",\"using\":" ++ marshalArrayRelUsing a.usingFk ++ "\x7d"

/-- json.Marshal of `CreateArrayRelationship`. -/
def marshalArrayRel (r : CreateArrayRelationship) : String :=
  "\x7b\"type\":" ++ jstr r.type ++ ",\"args\":" ++ marshalArrayRelArgs r.args ++ "\x7d"

/-- Embeds `json.Marshal(data)` for the three payload kinds passed to
`postMetadata`.  For these types marshalling cannot fail, so it is a total
function. -/
def marshalOperation : Operation → String
  | Operation.trackTable t => marshalTrackTable t
  | Operation.objectRel r => marshalObjectRel r
  | Operation.arrayRel r => marshalArrayRel r

/-! ## The submission engine `postMetadata` -/

/-- The constant `timeout = 10` (seconds), the `http.Client` timeout. -/
def timeoutSecondsConst : Nat := 10

/-- The single HTTP request that `postMetadata` builds and issues: `POST` to
`baseURL + "/metadata"` with the content-type and admin-secret headers and
the marshalled body, bounded by the client's 10-second timeout.
Request construction (`http.NewRequestWithContext`) is modelled as
succeeding: its only failure modes (an invalid method or an unparseable URL)
are excluded by the caller contract that `baseURL` is a valid base URL. -/
structure Request where
  method : String
  url : String
  contentType : String
  adminSecret : String
  body : String
  timeoutSeconds : Nat
deriving DecidableEq

/-- Outcome of `client.Do(req)`: either a transport error (network failure or
client-side timeout, `err ≠ nil`) or an HTTP response. -/
inductive TransportResult where
  | transportError : String → TransportResult
  | response : HTTPResponse → TransportResult

/-- The request built by lines 35-41 of `postMetadata`. -/
def buildRequest (baseURL hasuraSecret payload : String) : Request :=
  ⟨"POST", baseURL ++ "/metadata", "application/json; charset=UTF-8",
    hasuraSecret, payload, timeoutSecondsConst⟩

/-- Embeds `postMetadata(baseURL, hasuraSecret, data)`.  The transport (the
`http.Client` together with the remote endpoint) is an explicit argument;
the function returns the Go result together with the list of requests it
issued — always exactly the one request, since the code never retries. -/
def postMetadata (transport : Request → TransportResult)
    (baseURL hasuraSecret : String) (data : Operation) : PostResult × List Request :=
  let req := buildRequest baseURL hasuraSecret (marshalOperation data)
  match transport req with
  | TransportResult.transportError e =>
      (PostResult.goError ("problem executing request: " ++ e), [req])
  | TransportResult.response resp => (classifyResponse resp, [req])

/-! ## The five concrete payloads of `ApplyHasuraMetadata` (lines 141-278) -/

/-- The `bucketsTable` literal. -/
def bucketsTable : TrackTable :=
  ⟨"pg_track_table",
    ⟨"default", ⟨"storage", "buckets"⟩,
      ⟨"buckets",
        ⟨"buckets", "bucket", "bucketsAggregate", "insertBuckets", "insertBucket",
          "updateBuckets", "updateBucket", "deleteBuckets", "deleteBucket"⟩,
        [("id", "id"), ("created_at", "createdAt"), ("updated_at", "updatedAt"),
         ("download_expiration", "downloadExpiration"),
         ("min_upload_file_size", "minUploadFileSize"),
         ("max_upload_file_size", "maxUploadFileSize"),
         ("cache_control", "cacheControl"),
         ("presigned_urls_enabled", "presignedUrlsEnabled")]⟩⟩⟩

/-- The `filesTable` literal. -/
def filesTable : TrackTable :=
  ⟨"pg_track_table",
    ⟨"default", ⟨"storage", "files"⟩,
      ⟨"files",
        ⟨"files", "file", "filesAggregate", "insertFiles", "insertFile",
          "updateFiles", "updateFile", "deleteFiles", "deleteFile"⟩,
        [("id", "id"), ("created_at", "createdAt"), ("updated_at", "updatedAt"),
         ("bucket_id", "bucketId"), ("name", "name"), ("size", "size"),
         ("mime_type", "mimeType"), ("etag", "etag"),
         ("is_uploaded", "isUploaded"),
         ("uploaded_by_user_id", "uploadedByUserId")]⟩⟩⟩

/-- The `objRelationshipBuckets` literal: object relationship
`files.bucket` via `bucket_id`. -/
def objRelationshipBuckets : CreateObjectRelationship :=
  ⟨"pg_create_object_relationship",
    ⟨⟨"storage", "files"⟩, "bucket", "default", ⟨["bucket_id"]⟩⟩⟩

/-- The `arrRelationship` literal: array relationship `buckets.files` via
`files.bucket_id`. -/
def arrRelationship : CreateArrayRelationship :=
  ⟨"pg_create_array_relationship",
    ⟨⟨"storage", "buckets"⟩, "files", "default",
      ⟨⟨⟨"storage", "files"⟩, ["bucket_id"]⟩⟩⟩⟩

/-- The `objRelationshipUser` literal: object relationship
`files.uploadedByUser` via `uploaded_by_user_id`. -/
def objRelationshipUser : CreateObjectRelationship :=
  ⟨"pg_create_object_relationship",
    ⟨⟨"storage", "files"⟩, "uploadedByUser", "default", ⟨["uploaded_by_user_id"]⟩⟩⟩

/-! ## The orchestrator `ApplyHasuraMetadata` -/

/-- The fixed operation sequence, by position of the `postMetadata` call in
`ApplyHasuraMetadata`. -/
def nthOp : Nat → Operation
  | 0 => Operation.trackTable bucketsTable
  | 1 => Operation.trackTable filesTable
  | 2 => Operation.objectRel objRelationshipBuckets
  | 3 => Operation.arrayRel arrRelationship
  | _ => Operation.objectRel objRelationshipUser

/-- An endpoint behaviour: how the transport answers the `i`-th issued
request (the index is the number of requests issued before it). -/
def Endpoint : Type := Nat → Request → TransportResult

/-- The request issued by the `i`-th `postMetadata` call. -/
def nthRequest (url hasuraSecret : String) (i : Nat) : Request :=
  buildRequest url hasuraSecret (marshalOperation (nthOp i))

/-- The Go result of the `i`-th `postMetadata` call of
`ApplyHasuraMetadata`. -/
def nthOutcome (env : Endpoint) (url hasuraSecret : String) (i : Nat) : PostResult :=
  (postMetadata (env i) url hasuraSecret (nthOp i)).1

/-- The first `n` requests of the fixed sequence. -/
def requestsUpTo (url hasuraSecret : String) (n : Nat) : List Request :=
  (List.range n).map (nthRequest url hasuraSecret)

/-- Overall result of `ApplyHasuraMetadata`: a `nil` return, a non-nil error
return, or a runtime panic escaping it. -/
inductive RunResult where
  | success : RunResult
  | failed : String → RunResult
  | faulted : RunResult
deriving DecidableEq

/-- What one run of `ApplyHasuraMetadata` produces: its Go return value, the
requests issued to the endpoint in order, and the warning-level diagnostics
emitted through the logger. -/
structure ApplyResult where
  result : RunResult
  requests : List Request
  warnings : List String
deriving DecidableEq

/-- Embeds `ApplyHasuraMetadata(url, hasuraSecret, logger)`: five `postMetadata`
calls in a fixed order.  Each of the first four returns early with a wrapped
error on failure; a failure of the fifth is only logged as a warning
(lines 280-283) and the function still returns `nil`. -/
def applyHasuraMetadata (env : Endpoint) (url hasuraSecret : String) : ApplyResult :=
  match nthOutcome env url hasuraSecret 0 with
  | PostResult.fault => ⟨RunResult.faulted, requestsUpTo url hasuraSecret 1, []⟩
  | PostResult.goError e =>
      ⟨RunResult.failed ("problem adding metadata for the buckets table: " ++ e),
        requestsUpTo url hasuraSecret 1, []⟩
  | PostResult.ok =>
  match nthOutcome env url hasuraSecret 1 with
  | PostResult.fault => ⟨RunResult.faulted, requestsUpTo url hasuraSecret 2, []⟩
  | PostResult.goError e =>
      ⟨RunResult.failed ("problem adding metadata for the files table: " ++ e),
        requestsUpTo url hasuraSecret 2, []⟩
  | PostResult.ok =>
  match nthOutcome env url hasuraSecret 2 with
  | PostResult.fault => ⟨RunResult.faulted, requestsUpTo url hasuraSecret 3, []⟩
  | PostResult.goError e =>
      ⟨RunResult.failed ("problem creaiing object relationship for buckets: " ++ e),
        requestsUpTo url hasuraSecret 3, []⟩
  | PostResult.ok =>
  match nthOutcome env url hasuraSecret 3 with
  | PostResult.fault => ⟨RunResult.faulted, requestsUpTo url hasuraSecret 4, []⟩
  | PostResult.goError e =>
      ⟨RunResult.failed ("problem creating array relationships: " ++ e),
        requestsUpTo url hasuraSecret 4, []⟩
  | PostResult.ok =>
  match nthOutcome env url hasuraSecret 4 with
  | PostResult.fault => ⟨RunResult.faulted, requestsUpTo url hasuraSecret 5, []⟩
  | PostResult.goError e =>
      ⟨RunResult.success, requestsUpTo url hasuraSecret 5,
        ["problem creating object relationship for users: " ++ e]⟩
  | PostResult.ok => ⟨RunResult.success, requestsUpTo url hasuraSecret 5, []⟩

/-! ## Helper lemmas -/

/-- A 200 response classifies as `ok` (the `nil` return of line 61). -/
theorem classifyResponse_ok_of_200 {resp : HTTPResponse} (h : resp.statusCode = 200) :
    classifyResponse resp = PostResult.ok := by
  simp [classifyResponse, h]

/-- If the transport hands the `i`-th call a 200 response, that call
returns `nil`. -/
theorem nthOutcome_ok_of_200 {env : Endpoint} {u s : String} {i : Nat} {r : HTTPResponse}
    (henv : env i (nthRequest u s i) = TransportResult.response r)
    (hs : r.statusCode = 200) : nthOutcome env u s i = PostResult.ok := by
  simp only [nthOutcome, postMetadata]
  simp only [nthRequest] at henv
  rw [henv]
  exact classifyResponse_ok_of_200 hs

/-- The wrapping context of the four early-return error messages, by call
position. -/
def stepErrorContext : Nat → String → String
  | 0, e => "problem adding metadata for the buckets table: " ++ e
  | 1, e => "problem adding metadata for the files table: " ++ e
  | 2, e => "problem creaiing object relationship for buckets: " ++ e
  | _, e => "problem creating array relationships: " ++ e

/-- A failure of the first call returns its wrapped error after one
request. -/
theorem applyMeta_fail0 {env : Endpoint} {u s m : String}
    (h0 : nthOutcome env u s 0 = PostResult.goError m) :
    applyHasuraMetadata env u s =
      ⟨RunResult.failed ("problem adding metadata for the buckets table: " ++ m),
        requestsUpTo u s 1, []⟩ := by
  simp only [applyHasuraMetadata, h0]

/-- A failure of the second call returns its wrapped error after two
requests. -/
theorem applyMeta_fail1 {env : Endpoint} {u s m : String}
    (h0 : nthOutcome env u s 0 = PostResult.ok)
    (h1 : nthOutcome env u s 1 = PostResult.goError m) :
    applyHasuraMetadata env u s =
      ⟨RunResult.failed ("problem adding metadata for the files table: " ++ m),
        requestsUpTo u s 2, []⟩ := by
  simp only [applyHasuraMetadata, h0, h1]

/-- A failure of the third call returns its wrapped error after three
requests. -/
theorem applyMeta_fail2 {env : Endpoint} {u s m : String}
    (h0 : nthOutcome env u s 0 = PostResult.ok)
    (h1 : nthOutcome env u s 1 = PostResult.ok)
    (h2 : nthOutcome env u s 2 = PostResult.goError m) :
    applyHasuraMetadata env u s =
      ⟨RunResult.failed ("problem creaiing object relationship for buckets: " ++ m),
        requestsUpTo u s 3, []⟩ := by
  simp only [applyHasuraMetadata, h0, h1, h2]

/-- A failure of the fourth call returns its wrapped error after four
requests. -/
theorem applyMeta_fail3 {env : Endpoint} {u s m : String}
    (h0 : nthOutcome env u s 0 = PostResult.ok)
    (h1 : nthOutcome env u s 1 = PostResult.ok)
    (h2 : nthOutcome env u s 2 = PostResult.ok)
    (h3 : nthOutcome env u s 3 = PostResult.goError m) :
    applyHasuraMetadata env u s =
      ⟨RunResult.failed ("problem creating array relationships: " ++ m),
        requestsUpTo u s 4, []⟩ := by
  simp only [applyHasuraMetadata, h0, h1, h2, h3]

/-- A failure of the fifth call is only logged: the run still returns `nil`
after all five requests, with the one warning. -/
theorem applyMeta_warn4 {env : Endpoint} {u s m : String}
    (h0 : nthOutcome env u s 0 = PostResult.ok)
    (h1 : nthOutcome env u s 1 = PostResult.ok)
    (h2 : nthOutcome env u s 2 = PostResult.ok)
    (h3 : nthOutcome env u s 3 = PostResult.ok)
    (h4 : nthOutcome env u s 4 = PostResult.goError m) :
    applyHasuraMetadata env u s =
      ⟨RunResult.success, requestsUpTo u s 5,
        ["problem creating object relationship for users: " ++ m]⟩ := by
  simp only [applyHasuraMetadata, h0, h1, h2, h3, h4]

/-- Five `nil` returns: the run returns `nil` after all five requests with
no warnings. -/
theorem applyMeta_allOk {env : Endpoint} {u s : String}
    (h0 : nthOutcome env u s 0 = PostResult.ok)
    (h1 : nthOutcome env u s 1 = PostResult.ok)
    (h2 : nthOutcome env u s 2 = PostResult.ok)
    (h3 : nthOutcome env u s 3 = PostResult.ok)
    (h4 : nthOutcome env u s 4 = PostResult.ok) :
    applyHasuraMetadata env u s =
      ⟨RunResult.success, requestsUpTo u s 5, []⟩ := by
  simp only [applyHasuraMetadata, h0, h1, h2, h3, h4]

/-! ## Claim theorems -/

/-- C1: for every response handed back to `postMetadata` on which the
classification returns (does not hit the nil-pointer fault), the outcome is
not a returned error exactly when the status is 200 or the body decodes to
the structured error shape with code `already-tracked` or `already-exists`;
every other non-success response returns the error carrying the status code
and the detail. -/
theorem c1_outcome_classification (resp : HTTPResponse)
    (hnf : classifyResponse resp ≠ PostResult.fault) :
    ((¬ ∃ m, classifyResponse resp = PostResult.goError m) ↔
      (resp.statusCode = 200 ∨ ∃ e, resp.decoded = DecodeResult.object e ∧
        (e.code = "already-tracked" ∨ e.code = "already-exists"))) ∧
    (∀ m, classifyResponse resp = PostResult.goError m →
      m = errorDetail resp.statusCode resp.body) := by
  obtain ⟨st, bd, dec⟩ := resp
  by_cases hst : st = 200
  · subst hst
    simp [classifyResponse]
  · cases dec with
    | failure => simp [classifyResponse, hst]
    | nullValue => simp [classifyResponse, hst] at hnf
    | object e =>
      by_cases hc : e.code = "already-tracked" ∨ e.code = "already-exists"
      · simp [classifyResponse, hst, hc]
      · simp [classifyResponse, hst, hc]

/-- Witness for C1 at a concrete non-200 response with an unrelated code. -/
theorem c1_outcome_classification_witness :
    ((¬ ∃ m, classifyResponse ⟨500, "b", DecodeResult.object ⟨"$", "e", "oops"⟩⟩ =
        PostResult.goError m) ↔
      ((500 : Nat) = 200 ∨ ∃ e,
        DecodeResult.object ⟨"$", "e", "oops"⟩ = DecodeResult.object e ∧
        (e.code = "already-tracked" ∨ e.code = "already-exists"))) ∧
    (∀ m, classifyResponse ⟨500, "b", DecodeResult.object ⟨"$", "e", "oops"⟩⟩ =
        PostResult.goError m → m = errorDetail 500 "b") :=
  c1_outcome_classification ⟨500, "b", DecodeResult.object ⟨"$", "e", "oops"⟩⟩ (by decide)

/-- C6: a non-200 response whose body does not decode into the structured
error shape returns the error built by line 53, whose text contains the
numeric status code and the raw body verbatim. -/
theorem c6_unparsable_body_detail (resp : HTTPResponse)
    (hs : resp.statusCode ≠ 200) (hd : resp.decoded = DecodeResult.failure) :
    classifyResponse resp = PostResult.goError (errorDetail resp.statusCode resp.body) ∧
    (∃ pre post, errorDetail resp.statusCode resp.body =
      pre ++ toString resp.statusCode ++ post) ∧
    (∃ pre post, errorDetail resp.statusCode resp.body = pre ++ resp.body ++ post) := by
  refine ⟨by simp [classifyResponse, hs, hd], ?_, ?_⟩
  · exact ⟨"status_code: ", "\nresponse: " ++ resp.body, by
      simp [errorDetail, String.append_assoc]⟩
  · exact ⟨"status_code: " ++ toString resp.statusCode ++ "\nresponse: ", "", by
      simp [errorDetail, String.append_assoc]⟩

/-- Witness for C6 at a concrete 500 response with a non-JSON body. -/
theorem c6_unparsable_body_detail_witness :
    classifyResponse ⟨500, "garbage", DecodeResult.failure⟩ =
      PostResult.goError (errorDetail 500 "garbage") ∧
    (∃ pre post, errorDetail 500 "garbage" = pre ++ toString (500 : Nat) ++ post) ∧
    (∃ pre post, errorDetail 500 "garbage" = pre ++ "garbage" ++ post) :=
  c6_unparsable_body_detail ⟨500, "garbage", DecodeResult.failure⟩ (by decide) rfl

/-- C7: refuted — on a non-200 response whose body is the JSON literal
`null`, `json.Unmarshal` succeeds leaving `errResponse` a nil pointer, and
line 55's `errResponse.Code` dereferences it: the classification does not
return, it faults.  (The spec's intent — parsing that yields no structured
error is a Failed outcome — makes this a slip in the code.) -/
theorem c7_null_body_faults :
    classifyResponse ⟨500, "null", DecodeResult.nullValue⟩ = PostResult.fault := by
  rfl

/-- C8: one `postMetadata` call issues exactly one request — `POST` to
`baseURL ++ "/metadata"`, carrying the content-type and admin-secret headers
and the 10-second client timeout — and a transport failure (including a
timeout) is returned as an error, with no second request issued. -/
theorem c8_single_post_request (transport : Request → TransportResult)
    (baseURL hasuraSecret : String) (data : Operation) :
    (postMetadata transport baseURL hasuraSecret data).2 =
      [buildRequest baseURL hasuraSecret (marshalOperation data)] ∧
    (buildRequest baseURL hasuraSecret (marshalOperation data)).method = "POST" ∧
    (buildRequest baseURL hasuraSecret (marshalOperation data)).url =
      baseURL ++ "/metadata" ∧
    (buildRequest baseURL hasuraSecret (marshalOperation data)).contentType =
      "application/json; charset=UTF-8" ∧
    (buildRequest baseURL hasuraSecret (marshalOperation data)).adminSecret =
      hasuraSecret ∧
    (buildRequest baseURL hasuraSecret (marshalOperation data)).timeoutSeconds = 10 ∧
    (∀ e, transport (buildRequest baseURL hasuraSecret (marshalOperation data)) =
        TransportResult.transportError e →
      (postMetadata transport baseURL hasuraSecret data).1 =
        PostResult.goError ("problem executing request: " ++ e)) := by
  refine ⟨?_, rfl, rfl, rfl, rfl, rfl, ?_⟩
  · cases h : transport (buildRequest baseURL hasuraSecret (marshalOperation data)) <;>
      simp [postMetadata, h]
  · intro e he
    simp [postMetadata, he]

/-- Witness for C8: a transport that times out, at a concrete call. -/
theorem c8_single_post_request_witness :
    (postMetadata (fun _ => TransportResult.transportError "context deadline exceeded")
        "http://h" "s" (Operation.objectRel objRelationshipBuckets)).1 =
      PostResult.goError ("problem executing request: " ++ "context deadline exceeded") ∧
    (postMetadata (fun _ => TransportResult.transportError "context deadline exceeded")
        "http://h" "s" (Operation.objectRel objRelationshipBuckets)).2 =
      [buildRequest "http://h" "s"
        (marshalOperation (Operation.objectRel objRelationshipBuckets))] :=
  ⟨(c8_single_post_request (fun _ => TransportResult.transportError
      "context deadline exceeded") "http://h" "s"
      (Operation.objectRel objRelationshipBuckets)).2.2.2.2.2.2
      "context deadline exceeded" rfl,
   (c8_single_post_request (fun _ => TransportResult.transportError
      "context deadline exceeded") "http://h" "s"
      (Operation.objectRel objRelationshipBuckets)).1⟩

/-- C10: the interface collapses fresh application and idempotent
re-application: a 200 response and a non-200 response carrying an
idempotency code classify to the very same `nil` return, and two endpoint
behaviours whose five call outcomes agree give `ApplyHasuraMetadata` runs
that are indistinguishable to any caller. -/
theorem c10_applied_already_applied_collapsed :
    (∀ r1 r2 e, r1.statusCode = 200 → r2.statusCode ≠ 200 →
      r2.decoded = DecodeResult.object e →
      (e.code = "already-tracked" ∨ e.code = "already-exists") →
      classifyResponse r1 = PostResult.ok ∧ classifyResponse r2 = classifyResponse r1) ∧
    (∀ env1 env2 u s, (∀ i, nthOutcome env1 u s i = nthOutcome env2 u s i) →
      applyHasuraMetadata env1 u s = applyHasuraMetadata env2 u s) := by
  constructor
  · intro r1 r2 e h1 h2 hd hc
    refine ⟨classifyResponse_ok_of_200 h1, ?_⟩
    rw [classifyResponse_ok_of_200 h1]
    simp [classifyResponse, h2, hd, hc]
  · intro env1 env2 u s h
    simp only [applyHasuraMetadata, h 0, h 1, h 2, h 3, h 4]

/-- Witness for C10 at a 200 response, an already-tracked 400 response, and
a pair of identical endpoint behaviours. -/
theorem c10_applied_already_applied_collapsed_witness :
    (classifyResponse ⟨200, "", DecodeResult.failure⟩ = PostResult.ok ∧
      classifyResponse ⟨400, "b", DecodeResult.object ⟨"$", "e", "already-tracked"⟩⟩ =
        classifyResponse ⟨200, "", DecodeResult.failure⟩) ∧
    applyHasuraMetadata (fun _ _ => TransportResult.response ⟨200, "", DecodeResult.failure⟩)
        "http://h" "s" =
      applyHasuraMetadata (fun _ _ => TransportResult.response ⟨200, "", DecodeResult.failure⟩)
        "http://h" "s" :=
  ⟨c10_applied_already_applied_collapsed.1
      ⟨200, "", DecodeResult.failure⟩
      ⟨400, "b", DecodeResult.object ⟨"$", "e", "already-tracked"⟩⟩
      ⟨"$", "e", "already-tracked"⟩ rfl (by decide) rfl (Or.inl rfl),
   c10_applied_already_applied_collapsed.2
      (fun _ _ => TransportResult.response ⟨200, "", DecodeResult.failure⟩)
      (fun _ _ => TransportResult.response ⟨200, "", DecodeResult.failure⟩)
      "http://h" "s" (fun _ => rfl)⟩

/-- Endpoint behaviour answering 200 everywhere except the fourth call (the
array relationship), which gets a 500 with an unrelated error code. -/
def fourthCallFails : Endpoint := fun i _ =>
  if i = 3 then
    TransportResult.response
      ⟨500, "boom", DecodeResult.object ⟨"$.args", "constraint violation", "unexpected"⟩⟩
  else TransportResult.response ⟨200, "", DecodeResult.failure⟩

/-- Endpoint behaviour answering 200 everywhere except the fifth call (the
user relationship), which gets a 500 with an unrelated error code. -/
def fifthCallFails : Endpoint := fun i _ =>
  if i = 4 then
    TransportResult.response
      ⟨500, "no users table", DecodeResult.object ⟨"$.args", "table not found", "not-exists"⟩⟩
  else TransportResult.response ⟨200, "", DecodeResult.failure⟩

/-- C2 is false as stated: the fourth operation (and it is the array
relationship that sits fourth, not the user relationship) is critical — in
this run it fails and the sequence aborts with an error after four
requests instead of logging and continuing. -/
theorem c2_counterexample_fourth_op_critical :
    (applyHasuraMetadata fourthCallFails "http://h" "s").result =
      RunResult.failed ("problem creating array relationships: " ++ errorDetail 500 "boom") ∧
    (applyHasuraMetadata fourthCallFails "http://h" "s").requests.length = 4 ∧
    (applyHasuraMetadata fourthCallFails "http://h" "s").warnings = [] := by
  have h0 : nthOutcome fourthCallFails "http://h" "s" 0 = PostResult.ok := rfl
  have h1 : nthOutcome fourthCallFails "http://h" "s" 1 = PostResult.ok := rfl
  have h2 : nthOutcome fourthCallFails "http://h" "s" 2 = PostResult.ok := rfl
  have h3 : nthOutcome fourthCallFails "http://h" "s" 3 =
      PostResult.goError (errorDetail 500 "boom") := rfl
  rw [applyMeta_fail3 h0 h1 h2 h3]
  exact ⟨rfl, rfl, rfl⟩

/-- C2 (amended): the first four operations are critical — an error return
from any of them aborts the run right there — and the fifth operation (the
relationship to the optionally-absent authentication subsystem's table) is
best-effort: its failure is logged as the single warning and the run still
returns success. -/
theorem c2_first_four_critical_fifth_best_effort (env : Endpoint) (u s m : String)
    (i : Nat) (hi : i ≤ 4)
    (hpre : ∀ j, j < i → nthOutcome env u s j = PostResult.ok)
    (hfail : nthOutcome env u s i = PostResult.goError m) :
    (applyHasuraMetadata env u s).requests = requestsUpTo u s (i + 1) ∧
    (if i < 4 then
      (applyHasuraMetadata env u s).result = RunResult.failed (stepErrorContext i m) ∧
      (applyHasuraMetadata env u s).warnings = []
    else
      (applyHasuraMetadata env u s).result = RunResult.success ∧
      (applyHasuraMetadata env u s).warnings =
        ["problem creating object relationship for users: " ++ m]) := by
  interval_cases i
  · rw [applyMeta_fail0 hfail]
    simp [stepErrorContext]
  · rw [applyMeta_fail1 (hpre 0 (by norm_num)) hfail]
    simp [stepErrorContext]
  · rw [applyMeta_fail2 (hpre 0 (by norm_num)) (hpre 1 (by norm_num)) hfail]
    simp [stepErrorContext]
  · rw [applyMeta_fail3 (hpre 0 (by norm_num)) (hpre 1 (by norm_num))
      (hpre 2 (by norm_num)) hfail]
    simp [stepErrorContext]
  · rw [applyMeta_warn4 (hpre 0 (by norm_num)) (hpre 1 (by norm_num))
      (hpre 2 (by norm_num)) (hpre 3 (by norm_num)) hfail]
    simp

/-- Witness for the amended C2, exercising the best-effort fifth call. -/
theorem c2_first_four_critical_fifth_best_effort_witness :
    (applyHasuraMetadata fifthCallFails "http://h" "s").requests =
      requestsUpTo "http://h" "s" (4 + 1) ∧
    (if (4 : Nat) < 4 then
      (applyHasuraMetadata fifthCallFails "http://h" "s").result =
        RunResult.failed (stepErrorContext 4 (errorDetail 500 "no users table")) ∧
      (applyHasuraMetadata fifthCallFails "http://h" "s").warnings = []
    else
      (applyHasuraMetadata fifthCallFails "http://h" "s").result = RunResult.success ∧
      (applyHasuraMetadata fifthCallFails "http://h" "s").warnings =
        ["problem creating object relationship for users: " ++
          errorDetail 500 "no users table"]) :=
  c2_first_four_critical_fifth_best_effort fifthCallFails "http://h" "s"
    (errorDetail 500 "no users table") 4 (by norm_num)
    (fun j hj => by interval_cases j <;> rfl) rfl

/-- C3: once the buckets call has returned `nil`, an error from the
files-track call aborts the run — exactly the two track requests have been
issued, neither relationship payload is ever submitted — and the returned
error mentions the files table. -/
theorem c3_files_track_failure_aborts (env : Endpoint) (u s m : String)
    (h0 : nthOutcome env u s 0 = PostResult.ok)
    (h1 : nthOutcome env u s 1 = PostResult.goError m) :
    (applyHasuraMetadata env u s).requests = [nthRequest u s 0, nthRequest u s 1] ∧
    marshalOperation (Operation.objectRel objRelationshipBuckets) ∉
      ((applyHasuraMetadata env u s).requests.map Request.body) ∧
    marshalOperation (Operation.arrayRel arrRelationship) ∉
      ((applyHasuraMetadata env u s).requests.map Request.body) ∧
    marshalOperation (Operation.objectRel objRelationshipUser) ∉
      ((applyHasuraMetadata env u s).requests.map Request.body) ∧
    (applyHasuraMetadata env u s).result =
      RunResult.failed ("problem adding metadata for the files table: " ++ m) ∧
    (∃ pre post, "problem adding metadata for the files table: " ++ m =
      pre ++ "files table" ++ post) := by
  rw [applyMeta_fail1 h0 h1]
  refine ⟨rfl, ?_, ?_, ?_, rfl,
    ⟨"problem adding metadata for the ", ": " ++ m, by
      have h : "problem adding metadata for the files table: " =
          ("problem adding metadata for the " ++ "files table") ++ ": " := by decide
      rw [h, String.append_assoc]⟩⟩
  · show marshalObjectRel objRelationshipBuckets ∉
      [marshalTrackTable bucketsTable, marshalTrackTable filesTable]
    decide
  · show marshalArrayRel arrRelationship ∉
      [marshalTrackTable bucketsTable, marshalTrackTable filesTable]
    decide
  · show marshalObjectRel objRelationshipUser ∉
      [marshalTrackTable bucketsTable, marshalTrackTable filesTable]
    decide

/-- Endpoint behaviour answering 200 to the first call and a 500 with an
unrelated code to the files-track call. -/
def filesTrackFails : Endpoint := fun i _ =>
  if i = 1 then
    TransportResult.response ⟨500, "err", DecodeResult.object ⟨"$", "e", "postgres-error"⟩⟩
  else TransportResult.response ⟨200, "", DecodeResult.failure⟩

/-- Witness for C3 at a concrete endpoint behaviour. -/
theorem c3_files_track_failure_aborts_witness :
    (applyHasuraMetadata filesTrackFails "http://h" "s").requests =
      [nthRequest "http://h" "s" 0, nthRequest "http://h" "s" 1] ∧
    marshalOperation (Operation.objectRel objRelationshipBuckets) ∉
      ((applyHasuraMetadata filesTrackFails "http://h" "s").requests.map Request.body) ∧
    marshalOperation (Operation.arrayRel arrRelationship) ∉
      ((applyHasuraMetadata filesTrackFails "http://h" "s").requests.map Request.body) ∧
    marshalOperation (Operation.objectRel objRelationshipUser) ∉
      ((applyHasuraMetadata filesTrackFails "http://h" "s").requests.map Request.body) ∧
    (applyHasuraMetadata filesTrackFails "http://h" "s").result =
      RunResult.failed ("problem adding metadata for the files table: " ++
        errorDetail 500 "err") ∧
    (∃ pre post, "problem adding metadata for the files table: " ++ errorDetail 500 "err" =
      pre ++ "files table" ++ post) :=
  c3_files_track_failure_aborts filesTrackFails "http://h" "s"
    (errorDetail 500 "err") rfl rfl

/-- C4: if the first four calls get 200 responses and the user-relationship
call returns an error, the run reports success and emits exactly the one
warning, whose text references users. -/
theorem c4_user_rel_failure_tolerated (env : Endpoint) (u s m : String)
    (r0 r1 r2 r3 : HTTPResponse)
    (he0 : env 0 (nthRequest u s 0) = TransportResult.response r0)
    (hs0 : r0.statusCode = 200)
    (he1 : env 1 (nthRequest u s 1) = TransportResult.response r1)
    (hs1 : r1.statusCode = 200)
    (he2 : env 2 (nthRequest u s 2) = TransportResult.response r2)
    (hs2 : r2.statusCode = 200)
    (he3 : env 3 (nthRequest u s 3) = TransportResult.response r3)
    (hs3 : r3.statusCode = 200)
    (h4 : nthOutcome env u s 4 = PostResult.goError m) :
    (applyHasuraMetadata env u s).result = RunResult.success ∧
    (applyHasuraMetadata env u s).warnings =
      ["problem creating object relationship for users: " ++ m] ∧
    (∃ pre post, "problem creating object relationship for users: " ++ m =
      pre ++ "users" ++ post) := by
  rw [applyMeta_warn4 (nthOutcome_ok_of_200 he0 hs0) (nthOutcome_ok_of_200 he1 hs1)
    (nthOutcome_ok_of_200 he2 hs2) (nthOutcome_ok_of_200 he3 hs3) h4]
  exact ⟨rfl, rfl,
    ⟨"problem creating object relationship for ", ": " ++ m, by
      have h : "problem creating object relationship for users: " =
          ("problem creating object relationship for " ++ "users") ++ ": " := by decide
      rw [h, String.append_assoc]⟩⟩

/-- Witness for C4 at a concrete endpoint behaviour. -/
theorem c4_user_rel_failure_tolerated_witness :
    (applyHasuraMetadata fifthCallFails "http://w" "s").result = RunResult.success ∧
    (applyHasuraMetadata fifthCallFails "http://w" "s").warnings =
      ["problem creating object relationship for users: " ++
        errorDetail 500 "no users table"] ∧
    (∃ pre post, "problem creating object relationship for users: " ++
        errorDetail 500 "no users table" = pre ++ "users" ++ post) :=
  c4_user_rel_failure_tolerated fifthCallFails "http://w" "s"
    (errorDetail 500 "no users table")
    ⟨200, "", DecodeResult.failure⟩ ⟨200, "", DecodeResult.failure⟩
    ⟨200, "", DecodeResult.failure⟩ ⟨200, "", DecodeResult.failure⟩
    rfl rfl rfl rfl rfl rfl rfl rfl rfl

/-- C5: if every call gets a 200 response, the run reports success with no
warnings and issues exactly the five POST requests to `u ++ "/metadata"`,
in the fixed order buckets-track, files-track, files-bucket object
relationship, buckets-files array relationship, files-user object
relationship. -/
theorem c5_all_success_five_requests_in_order (env : Endpoint) (u s : String)
    (r0 r1 r2 r3 r4 : HTTPResponse)
    (he0 : env 0 (nthRequest u s 0) = TransportResult.response r0)
    (hs0 : r0.statusCode = 200)
    (he1 : env 1 (nthRequest u s 1) = TransportResult.response r1)
    (hs1 : r1.statusCode = 200)
    (he2 : env 2 (nthRequest u s 2) = TransportResult.response r2)
    (hs2 : r2.statusCode = 200)
    (he3 : env 3 (nthRequest u s 3) = TransportResult.response r3)
    (hs3 : r3.statusCode = 200)
    (he4 : env 4 (nthRequest u s 4) = TransportResult.response r4)
    (hs4 : r4.statusCode = 200) :
    (applyHasuraMetadata env u s).result = RunResult.success ∧
    (applyHasuraMetadata env u s).warnings = [] ∧
    (applyHasuraMetadata env u s).requests =
      [nthRequest u s 0, nthRequest u s 1, nthRequest u s 2,
        nthRequest u s 3, nthRequest u s 4] ∧
    (applyHasuraMetadata env u s).requests.length = 5 ∧
    (∀ r ∈ (applyHasuraMetadata env u s).requests,
      r.method = "POST" ∧ r.url = u ++ "/metadata") ∧
    (nthRequest u s 0).body = marshalTrackTable bucketsTable ∧
    (nthRequest u s 1).body = marshalTrackTable filesTable ∧
    (nthRequest u s 2).body = marshalObjectRel objRelationshipBuckets ∧
    (nthRequest u s 3).body = marshalArrayRel arrRelationship ∧
    (nthRequest u s 4).body = marshalObjectRel objRelationshipUser := by
  rw [applyMeta_allOk (nthOutcome_ok_of_200 he0 hs0) (nthOutcome_ok_of_200 he1 hs1)
    (nthOutcome_ok_of_200 he2 hs2) (nthOutcome_ok_of_200 he3 hs3)
    (nthOutcome_ok_of_200 he4 hs4)]
  refine ⟨rfl, rfl, rfl, rfl, ?_, rfl, rfl, rfl, rfl, rfl⟩
  intro r hr
  have hlist : requestsUpTo u s 5 =
      [nthRequest u s 0, nthRequest u s 1, nthRequest u s 2,
        nthRequest u s 3, nthRequest u s 4] := rfl
  rw [show (ApplyResult.mk RunResult.success (requestsUpTo u s 5) []).requests =
    requestsUpTo u s 5 from rfl, hlist] at hr
  simp only [List.mem_cons, List.not_mem_nil, or_false] at hr
  rcases hr with h | h | h | h | h <;> subst h <;> exact ⟨rfl, rfl⟩

/-- The all-200 endpoint behaviour. -/
def allOkEnv : Endpoint := fun _ _ => TransportResult.response ⟨200, "", DecodeResult.failure⟩

/-- Witness for C5 at the all-200 endpoint behaviour. -/
theorem c5_all_success_five_requests_in_order_witness :
    (applyHasuraMetadata allOkEnv "http://h" "s").result = RunResult.success ∧
    (applyHasuraMetadata allOkEnv "http://h" "s").warnings = [] ∧
    (applyHasuraMetadata allOkEnv "http://h" "s").requests =
      [nthRequest "http://h" "s" 0, nthRequest "http://h" "s" 1, nthRequest "http://h" "s" 2,
        nthRequest "http://h" "s" 3, nthRequest "http://h" "s" 4] ∧
    (applyHasuraMetadata allOkEnv "http://h" "s").requests.length = 5 ∧
    (∀ r ∈ (applyHasuraMetadata allOkEnv "http://h" "s").requests,
      r.method = "POST" ∧ r.url = "http://h" ++ "/metadata") ∧
    (nthRequest "http://h" "s" 0).body = marshalTrackTable bucketsTable ∧
    (nthRequest "http://h" "s" 1).body = marshalTrackTable filesTable ∧
    (nthRequest "http://h" "s" 2).body = marshalObjectRel objRelationshipBuckets ∧
    (nthRequest "http://h" "s" 3).body = marshalArrayRel arrRelationship ∧
    (nthRequest "http://h" "s" 4).body = marshalObjectRel objRelationshipUser :=
  c5_all_success_five_requests_in_order allOkEnv "http://h" "s"
    ⟨200, "", DecodeResult.failure⟩ ⟨200, "", DecodeResult.failure⟩
    ⟨200, "", DecodeResult.failure⟩ ⟨200, "", DecodeResult.failure⟩
    ⟨200, "", DecodeResult.failure⟩ rfl rfl rfl rfl rfl rfl rfl rfl rfl rfl

/-- Looking a key up in an association list with distinct keys is invariant
under permutation of the list. -/
theorem lookup_eq_of_perm {m1 m2 : List (String × String)} (h : m1.Perm m2) :
    (m1.map Prod.fst).Nodup → ∀ k, m1.lookup k = m2.lookup k := by
  induction h with
  | nil => intro _ _; rfl
  | cons x h ih =>
    intro nd k
    obtain ⟨a, b⟩ := x
    simp only [List.map_cons, List.nodup_cons] at nd
    simp only [List.lookup_cons]
    split
    · rfl
    · exact ih nd.2 k
  | swap x y l =>
    intro nd k
    obtain ⟨a, b⟩ := x
    obtain ⟨c, d⟩ := y
    have hne : c ≠ a := by
      simp only [List.map_cons, List.nodup_cons, List.mem_cons] at nd
      exact fun e => nd.1 (Or.inl e)
    simp only [List.lookup_cons]
    by_cases hkc : k = c <;> by_cases hka : k = a
    · exact absurd (hkc.symm.trans hka) hne
    · subst hkc
      simp [beq_eq_false_iff_ne.mpr hne]
    · subst hka
      simp [beq_eq_false_iff_ne.mpr (Ne.symm hne)]
    · simp [beq_eq_false_iff_ne.mpr hkc, beq_eq_false_iff_ne.mpr hka]
  | trans h1 h2 ih1 ih2 =>
    intro nd k
    exact (ih1 nd k).trans (ih2 ((h1.map Prod.fst).nodup_iff.mp nd) k)

/-- Sorting with `≤` on strings sends permuted lists to the same list. -/
theorem insertionSort_eq_of_perm {l1 l2 : List String} (h : l1.Perm l2) :
    l1.insertionSort (· ≤ ·) = l2.insertionSort (· ≤ ·) :=
  List.eq_of_perm_of_sorted
    (((List.perm_insertionSort _ l1).trans h).trans (List.perm_insertionSort _ l2).symm)
    (List.sorted_insertionSort _ l1) (List.sorted_insertionSort _ l2)

/-- The wire form of a `map[string]string` depends only on the map, not on
the iteration order the association list presents it in. -/
theorem marshalColumnNames_congr {m1 m2 : List (String × String)}
    (hp : m1.Perm m2) (nd : (m1.map Prod.fst).Nodup) :
    marshalColumnNames m1 = marshalColumnNames m2 := by
  unfold marshalColumnNames
  rw [insertionSort_eq_of_perm (hp.map Prod.fst)]
  have hf : (fun k => jstr k ++ ":" ++ jstr ((m1.lookup k).getD "")) =
      (fun k => jstr k ++ ":" ++ jstr ((m2.lookup k).getD "")) :=
    funext fun k => by rw [lookup_eq_of_perm hp nd k]
  rw [hf]

/-- Two `Configuration`s presenting the same logical value: equal fields,
with the column-name maps equal as finite maps (association lists that are
permutations of each other, keys distinct). -/
def configurationEquiv (c1 c2 : Configuration) : Prop :=
  c1.customName = c2.customName ∧ c1.customRootFields = c2.customRootFields ∧
  c1.customColumnNames.Perm c2.customColumnNames ∧
  (c1.customColumnNames.map Prod.fst).Nodup

/-- Two `TrackTable`s presenting the same logical value. -/
def trackTableEquiv (t1 t2 : TrackTable) : Prop :=
  t1.type = t2.type ∧ t1.args.source = t2.args.source ∧
  t1.args.table = t2.args.table ∧
  configurationEquiv t1.args.configuration t2.args.configuration

/-- Two operations presenting the same logical value: identical, except
that a track-table payload's column-name map may be presented in a
different iteration order. -/
def operationEquiv : Operation → Operation → Prop
  | Operation.trackTable t1, Operation.trackTable t2 => trackTableEquiv t1 t2
  | o1, o2 => o1 = o2

/-- C9: serialization is deterministic for every operation kind — two
presentations of the same logical operation, including any iteration order
of the map-valued custom column names, marshal to byte-identical wire
payloads. -/
theorem c9_marshalling_deterministic (op1 op2 : Operation)
    (h : operationEquiv op1 op2) : marshalOperation op1 = marshalOperation op2 := by
  cases op1 with
  | trackTable t1 =>
    cases op2 with
    | trackTable t2 =>
      simp only [operationEquiv, trackTableEquiv, configurationEquiv] at h
      obtain ⟨ht, hsrc, htab, hname, hroot, hperm, hnd⟩ := h
      show marshalTrackTable t1 = marshalTrackTable t2
      unfold marshalTrackTable marshalPgTrackTableArgs marshalConfiguration
      rw [ht, hsrc, htab, hname, hroot, marshalColumnNames_congr hperm hnd]
    | objectRel r2 => simp [operationEquiv] at h
    | arrayRel r2 => simp [operationEquiv] at h
  | objectRel r1 =>
    cases op2 with
    | trackTable t2 => simp [operationEquiv] at h
    | objectRel r2 =>
      simp only [operationEquiv, Operation.objectRel.injEq] at h
      rw [h]
    | arrayRel r2 => simp [operationEquiv] at h
  | arrayRel r1 =>
    cases op2 with
    | trackTable t2 => simp [operationEquiv] at h
    | objectRel r2 => simp [operationEquiv] at h
    | arrayRel r2 =>
      simp only [operationEquiv, Operation.arrayRel.injEq] at h
      rw [h]

/-- Witness for C9: the same small track-table payload presented with its
two-entry column map in both iteration orders. -/
theorem c9_marshalling_deterministic_witness :
    operationEquiv
      (Operation.trackTable ⟨"pg_track_table",
        ⟨"default", ⟨"storage", "t"⟩,
          ⟨"t", ⟨"a", "b", "c", "d", "e", "f", "g", "h", "i"⟩,
            [("x", "1"), ("y", "2")]⟩⟩⟩)
      (Operation.trackTable ⟨"pg_track_table",
        ⟨"default", ⟨"storage", "t"⟩,
          ⟨"t", ⟨"a", "b", "c", "d", "e", "f", "g", "h", "i"⟩,
            [("y", "2"), ("x", "1")]⟩⟩⟩) ∧
    marshalOperation
      (Operation.trackTable ⟨"pg_track_table",
        ⟨"default", ⟨"storage", "t"⟩,
          ⟨"t", ⟨"a", "b", "c", "d", "e", "f", "g", "h", "i"⟩,
            [("x", "1"), ("y", "2")]⟩⟩⟩) =
    marshalOperation
      (Operation.trackTable ⟨"pg_track_table",
        ⟨"default", ⟨"storage", "t"⟩,
          ⟨"t", ⟨"a", "b", "c", "d", "e", "f", "g", "h", "i"⟩,
            [("y", "2"), ("x", "1")]⟩⟩⟩) := by
  have h : operationEquiv
      (Operation.trackTable ⟨"pg_track_table",
        ⟨"default", ⟨"storage", "t"⟩,
          ⟨"t", ⟨"a", "b", "c", "d", "e", "f", "g", "h", "i"⟩,
            [("x", "1"), ("y", "2")]⟩⟩⟩)
      (Operation.trackTable ⟨"pg_track_table",
        ⟨"default", ⟨"storage", "t"⟩,
          ⟨"t", ⟨"a", "b", "c", "d", "e", "f", "g", "h", "i"⟩,
            [("y", "2"), ("x", "1")]⟩⟩⟩) := by
    refine ⟨rfl, rfl, rfl, rfl, rfl, ?_, ?_⟩
    · exact List.Perm.swap ("y", "2") ("x", "1") []
    · decide
  exact ⟨h, c9_marshalling_deterministic _ _ h⟩

end HasuraStorage
